import Mathlib

set_option maxRecDepth 8000
set_option linter.unusedVariables false

namespace AutoBoot

/-!
Shallow embedding of the AutoBoot bootstrap orchestrator
(`src/autoboot/cli.py`).

File contents and captured process output are modelled as `List Char`
(none of the claims depend on encoding details beyond the characters).
The filesystem is passed explicitly as optional file contents, the
subprocess layer and the single HTTP call are modelled as
environment-supplied outcomes, and `main` is a pure function from such
an environment to an observable result (exit code plus a trace of the
remote-creation and push calls).
-/

/-- Python `str.splitlines` restricted to the LF separator (the only one the
program produces or inspects): the text is cut at every newline character and
a trailing newline does not contribute a final empty line, so
`"a\nb\n"` and `"a\nb"` both have lines `a`, `b`, and `""` has none. -/
def pySplitlines : List Char → List (List Char)
  | [] => []
  | c :: rest =>
    if c = '\n' then [] :: pySplitlines rest
    else
      match pySplitlines rest with
      | [] => [[c]]
      | l :: ls => (c :: l) :: ls

/-- Python `"\n".join` over a list of lines. -/
def pyJoinNL : List (List Char) → List Char
  | [] => []
  | [l] => l
  | l :: l' :: ls => l ++ '\n' :: pyJoinNL (l' :: ls)

/-- The whitespace characters Python `str.strip` removes (ASCII range). -/
def pyIsSpace (c : Char) : Bool :=
  c = ' ' || c = '\t' || c = '\n' || c = '\r' || c = '\x0b' || c = '\x0c'

/-- Python `str.strip`: drop whitespace from both ends. -/
def pyStrip (s : List Char) : List Char :=
  ((s.dropWhile pyIsSpace).reverse.dropWhile pyIsSpace).reverse

/-- Python substring containment, `needle in hay`. -/
def occursIn (needle : List Char) : List Char → Bool
  | [] => needle.isEmpty
  | c :: rest => needle.isPrefixOf (c :: rest) || occursIn needle rest

/-- Python truthiness of an optional string: `None` and `""` are falsy. -/
def pyTruthy : Option String → Bool
  | none => false
  | some s => !s.isEmpty

/-- Constant `GITIGNORE_TEMPLATE` from `cli.py`: the dedented block, stripped, with a
final newline appended — written out literally. -/
def GITIGNORE_TEMPLATE : String :=
  "# Python\n__pycache__/\n*.py[cod]\n*.pyo\n*.pyd\n*.so\n*.egg-info/\ndist/\nbuild/\n\n# Virtual env\n.venv/\nvenv/\nenv/\n\n# Editors\n.vscode/\n.idea/\n\n# OS\n.DS_Store\nThumbs.db\n\n# Env and secrets\n.env\n*.env\n\n# Streamlit\n.streamlit/\n\n# Jupyter\n.ipynb_checkpoints\n"

/-- Constant `MIT_LICENSE` from `cli.py` (the fixed license template). -/
def MIT_LICENSE : String :=
  "MIT License\n\nCopyright (c) YOUR NAME\n\nPermission is hereby granted, free of charge, to any person obtaining a copy\nof this software and associated documentation files (the \"Software\"), to deal\nin the Software without restriction, including without limitation the rights\nto use, copy, modify, merge, publish, distribute, sublicense, and/or sell\ncopies of the Software, and to permit persons to whom the Software is\nfurnished to do so, subject to the following conditions:\n\nThe above copyright notice and this permission notice shall be included in all\ncopies or substantial portions of the Software.\n\nTHE SOFTWARE IS PROVIDED \"AS IS\", WITHOUT WARRANTY OF ANY KIND, EXPRESS OR\nIMPLIED, INCLUDING BUT NOT LIMITED TO THE WARRANTIES OF MERCHANTABILITY,\nFITNESS FOR A PARTICULAR PURPOSE AND NONINFRINGEMENT. IN NO EVENT SHALL THE\nAUTHORS OR COPYRIGHT HOLDERS BE LIABLE FOR ANY CLAIM, DAMAGES OR OTHER\nLIABILITY, WHETHER IN AN ACTION OF CONTRACT, TORT OR OTHERWISE, ARISING FROM,\nOUT OF OR IN CONNECTION WITH THE SOFTWARE OR THE USE OR OTHER DEALINGS IN THE\nSOFTWARE.\n"

/-- Evaluation of `GITIGNORE_TEMPLATE.splitlines()`, the list the update comprehension of
`ensure_gitignore` iterates over. -/
def templateLines : List (List Char) := pySplitlines GITIGNORE_TEMPLATE.data

/-- The comprehension in `ensure_gitignore`:
`[ln for ln in GITIGNORE_TEMPLATE.splitlines() if ln and ln not in existing]`. -/
def gitignoreLinesToAdd (existing : List (List Char)) : List (List Char) :=
  templateLines.filter (fun ln => decide (ln ≠ [] ∧ ln ∉ existing))

/-- Model of `ensure_gitignore`, state-passing over the content of `.gitignore`
(`none` when the file does not exist). Returns the content afterwards and the
changed flag the function returns. When the file exists and template lines are
missing, the source appends `"\n" + "\n".join(to_add) + "\n"`. -/
def ensure_gitignore (file : Option (List Char)) : List Char × Bool :=
  match file with
  | none => (GITIGNORE_TEMPLATE.data, true)
  | some text =>
    let existing := pySplitlines text
    let toAdd := gitignoreLinesToAdd existing
    if toAdd.isEmpty then (text, false)
    else (text ++ '\n' :: (pyJoinNL toAdd ++ ['\n']), true)

/-- Model of `create_license`, state-passing over the content of `LICENSE`: writes the
fixed license only when the file is absent, otherwise leaves it untouched and
returns `False`. -/
def create_license (file : Option (List Char)) : List Char × Bool :=
  match file with
  | some text => (text, false)
  | none => (MIT_LICENSE.data, true)

/-- Outcome of the `git commit` subprocess in `init_git`: success, or a
`CalledProcessError` carrying the captured stdout and stderr. -/
inductive CommitResult where
  | ok
  | err (stdout stderr : List Char)
deriving DecidableEq

/-- Expression `(e.stderr or e.stdout or "").strip()` from `init_git` (`or` takes the
first non-empty string). -/
def commitFailureMsg (stdout stderr : List Char) : List Char :=
  pyStrip (if stderr.isEmpty then stdout else stderr)

/-- The identity test in `init_git`: `"user.name" in msg or "user.email" in msg`. -/
def isIdentityMsg (msg : List Char) : Bool :=
  occursIn "user.name".data msg || occursIn "user.email".data msg

/-- Whether a commit outcome takes the fatal identity branch of `init_git`. -/
def identityCommitFailure : CommitResult → Bool
  | .ok => false
  | .err out errOut => isIdentityMsg (commitFailureMsg out errOut)

/-- The remediation lines `init_git` prints on an identity-related commit
failure. -/
def identityGuidance : List String :=
  ["[git] Commit failed. Set your identity:",
   "  git config --global user.name \"Your Name\"",
   "  git config --global user.email \"you@example.com\""]

/-- Result of `init_git`'s commit step: fatal identity failure (the process
exits with code 1 after printing the guidance), a created commit, or a
non-fatal failure that is logged and stepped over. -/
inductive InitOutcome where
  | fatalIdentity (guidance : List String)
  | committed
  | continuedAfterFailure
deriving DecidableEq

/-- The commit-handling part of `init_git` (the `git init` / `git add -A`
subprocesses preceding it carry no branching relevant to the claims and are
assumed to succeed, as the source lets their failures propagate unhandled). -/
def init_git (commit : CommitResult) : InitOutcome :=
  match commit with
  | .ok => .committed
  | .err out errOut =>
    if isIdentityMsg (commitFailureMsg out errOut) then .fatalIdentity identityGuidance
    else .continuedAfterFailure

/-- The HTTP response of the repository-creation POST: status code, raw body
text, and the two JSON fields of the parsed body that the program reads
(`none` models an absent or null field). -/
structure ApiResponse where
  status : Nat
  text : String
  clone_url : Option String
  html_url : Option String
deriving DecidableEq

/-- The parsed JSON payload as the program consumes it. -/
structure RepoData where
  clone_url : Option String
  html_url : Option String
deriving DecidableEq

/-- Python falsiness of `data.get("clone_url")`: absent, null, or empty. -/
def cloneUrlMissing : Option String → Bool
  | none => true
  | some s => s.isEmpty

/-- Model of `create_github_repo`, as a function of the response the endpoint hands
back: status `>= 300` raises with the status and body; a successful status
without a truthy `clone_url` raises; otherwise the parsed payload is
returned. -/
def create_github_repo (resp : ApiResponse) : Except String RepoData :=
  if 300 ≤ resp.status then
    Except.error ("GitHub API error " ++ toString resp.status ++ ": " ++ resp.text)
  else if cloneUrlMissing resp.clone_url then
    Except.error "GitHub API did not return clone_url"
  else
    Except.ok ⟨resp.clone_url, resp.html_url⟩

/-- The environment a run of `main` observes: the git binary check, the two
scaffolded files, the commit outcome, the two credential variables, the HTTP
response, and the outcomes of the remote subprocess calls. -/
structure Env where
  gitAvailable : Bool
  gitignore : Option (List Char)
  licenseFile : Option (List Char)
  commitResult : CommitResult
  github_token : Option String
  gh_token : Option String
  api : ApiResponse
  remotes : List String
  remoteAdd : Except String Unit
  push : Except String Unit

/-- Assignment `token = os.environ.get("GITHUB_TOKEN") or os.environ.get("GH_TOKEN")`. -/
def lookupToken (github_token gh_token : Option String) : Option String :=
  if pyTruthy github_token then github_token else gh_token

/-- Model of `connect_remote_and_push`: the branch rename failure is swallowed,
`git remote add` runs only when no remote named `origin` is listed (its
failure propagates), then the push outcome propagates. The `cloneUrl`
argument is the remote URL handed over by `main`. -/
def connect_remote_and_push (env : Env) (cloneUrl : String) : Except String Unit :=
  match (if "origin" ∈ env.remotes then Except.ok () else env.remoteAdd) with
  | .error e => .error e
  | .ok _ => env.push

/-- Observable outcome of a run of `main`: the process exit code (0 on the
success path), the two file contents afterwards, whether
`create_github_repo` was invoked, the token used, the `clone_url` value
`connect_remote_and_push` was invoked with (`none` if it never was), the
error text surfaced by the top-level handler, and the repository URL shown in
the final summary. -/
structure MainResult where
  exitCode : Nat
  gitignoreAfter : Option (List Char)
  licenseAfter : Option (List Char)
  createRepoCalled : Bool
  tokenUsed : Option String
  pushedCloneUrl : Option String
  surfacedError : Option String
  htmlUrlShown : Option String
deriving DecidableEq

/-- Model of `main` from `cli.py` over the environment model: git check, scaffolding,
init/commit, credential lookup, remote creation, connect-and-push, summary.
The audit and scan steps touch only their report files and never branch the
control flow, so they do not appear in the observable result. -/
def main (env : Env) : MainResult :=
  if env.gitAvailable then
    let gi := (ensure_gitignore env.gitignore).1
    let lic := (create_license env.licenseFile).1
    match init_git env.commitResult with
    | .fatalIdentity _ => ⟨1, some gi, some lic, false, none, none, none, none⟩
    | _ =>
      let token := lookupToken env.github_token env.gh_token
      if pyTruthy token then
        match create_github_repo env.api with
        | .error e =>
          ⟨3, some gi, some lic, true, token, none, some ("[github] Error: " ++ e), none⟩
        | .ok data =>
          let cu := data.clone_url.getD ""
          match connect_remote_and_push env cu with
          | .error e =>
            ⟨3, some gi, some lic, true, token, some cu, some ("[github] Error: " ++ e), none⟩
          | .ok _ => ⟨0, some gi, some lic, true, token, some cu, none, data.html_url⟩
      else ⟨2, some gi, some lic, false, none, none, none, none⟩
  else ⟨1, env.gitignore, env.licenseFile, false, none, none, none, none⟩

/-- Predicate for exit code 3: some error was raised during remote creation,
or during the connect-and-push stage, and caught by the top-level handler. -/
def remoteStageError (env : Env) : Prop :=
  (∃ e, create_github_repo env.api = Except.error e) ∨
  (∃ d e, create_github_repo env.api = Except.ok d ∧
    connect_remote_and_push env (d.clone_url.getD "") = Except.error e)

/-! Concrete environments used to instantiate the theorems. Fields in order:
gitAvailable, gitignore, licenseFile, commitResult, github_token, gh_token,
api (status, text, clone_url, html_url), remotes, remoteAdd, push. -/

/-- A fully nominal run: repository created (201) and push succeeding. -/
def envCreated : Env :=
  ⟨true, some "node_modules/".data, some "license text".data, CommitResult.ok,
    some "ghp_tok", none, ⟨201, "", some "https://example.test/o/r.git", some "https://example.test/o/r"⟩,
    ["origin"], Except.ok (), Except.ok ()⟩

/-- A run whose creation endpoint answers 422. -/
def envRejected : Env :=
  ⟨true, some "node_modules/".data, some "license text".data, CommitResult.ok,
    some "ghp_tok", none, ⟨422, "Unprocessable Entity", none, none⟩,
    ["origin"], Except.ok (), Except.ok ()⟩

/-- A run whose creation endpoint answers 201 with an empty `clone_url` value. -/
def envEmptyCloneUrl : Env :=
  ⟨true, some "node_modules/".data, some "license text".data, CommitResult.ok,
    some "ghp_tok", none, ⟨201, "", some "", some "https://example.test/o/r"⟩,
    ["origin"], Except.ok (), Except.ok ()⟩

/-- A run where `GITHUB_TOKEN` is set to the empty string and `GH_TOKEN` is unset. -/
def envEmptyToken : Env :=
  ⟨true, some "node_modules/".data, some "license text".data, CommitResult.ok,
    some "", none, ⟨201, "", some "https://example.test/o/r.git", some "https://example.test/o/r"⟩,
    ["origin"], Except.ok (), Except.ok ()⟩

/-- A run with neither credential variable set and the git binary absent. -/
def envNoTokenNoGit : Env :=
  ⟨false, none, none, CommitResult.ok, none, none,
    ⟨201, "", some "https://example.test/o/r.git", some "https://example.test/o/r"⟩,
    [], Except.ok (), Except.ok ()⟩

/-- A run with git present but neither credential variable set. -/
def envNoToken : Env :=
  ⟨true, none, none, CommitResult.ok, none, none,
    ⟨201, "", some "https://example.test/o/r.git", some "https://example.test/o/r"⟩,
    [], Except.ok (), Except.ok ()⟩

/-- A run whose commit fails with an identity-configuration message. -/
def envIdentityFailure : Env :=
  ⟨true, none, none,
    CommitResult.err [] "fatal: empty ident name. Run git config --global user.email".data,
    some "ghp_tok", none,
    ⟨201, "", some "https://example.test/o/r.git", some "https://example.test/o/r"⟩,
    ["origin"], Except.ok (), Except.ok ()⟩

/-- A run whose commit fails with an unrelated message. -/
def envNothingToCommit : Env :=
  ⟨true, none, none,
    CommitResult.err "nothing to commit, working tree clean".data [],
    some "ghp_tok", none,
    ⟨201, "", some "https://example.test/o/r.git", some "https://example.test/o/r"⟩,
    ["origin"], Except.ok (), Except.ok ()⟩

/-! Splitlines lemmas used by the merge proofs. -/

theorem pySplitlines_cons_nl (rest : List Char) :
    pySplitlines ('\n' :: rest) = [] :: pySplitlines rest := by
  simp [pySplitlines]

theorem pySplitlines_cons_of_nil {c : Char} {rest : List Char} (hc : c ≠ '\n')
    (h : pySplitlines rest = []) : pySplitlines (c :: rest) = [[c]] := by
  simp [pySplitlines, hc, h]

theorem pySplitlines_cons_of_cons {c : Char} {rest l : List Char}
    {ls : List (List Char)} (hc : c ≠ '\n') (h : pySplitlines rest = l :: ls) :
    pySplitlines (c :: rest) = (c :: l) :: ls := by
  simp [pySplitlines, hc, h]

theorem pySplitlines_ne_nil {a : List Char} (h : a ≠ []) : pySplitlines a ≠ [] := by
  match a with
  | c :: rest =>
    by_cases hc : c = '\n'
    · subst hc
      rw [pySplitlines_cons_nl]
      simp
    · cases h' : pySplitlines rest with
      | nil => rw [pySplitlines_cons_of_nil hc h']; simp
      | cons l ls => rw [pySplitlines_cons_of_cons hc h']; simp

theorem pySplitlines_append_newline (a b : List Char) :
    pySplitlines (a ++ '\n' :: b) = pySplitlines (a ++ ['\n']) ++ pySplitlines b := by
  induction a with
  | nil =>
    rw [List.nil_append, List.nil_append, pySplitlines_cons_nl]
    rfl
  | cons c rest ih =>
    rw [List.cons_append, List.cons_append]
    by_cases hc : c = '\n'
    · subst hc
      rw [pySplitlines_cons_nl, pySplitlines_cons_nl, ih]
      rfl
    · have hne : pySplitlines (rest ++ ['\n']) ≠ [] := pySplitlines_ne_nil (by simp)
      cases h' : pySplitlines (rest ++ ['\n']) with
      | nil => exact absurd h' hne
      | cons l ls =>
        have h2 : pySplitlines (rest ++ '\n' :: b) = l :: (ls ++ pySplitlines b) := by
          rw [ih, h']
          rfl
        rw [pySplitlines_cons_of_cons hc h2, pySplitlines_cons_of_cons hc h']
        rfl

theorem pySplitlines_snoc_newline (a : List Char) :
    pySplitlines (a ++ ['\n']) = pySplitlines a ∨
    pySplitlines (a ++ ['\n']) = pySplitlines a ++ [[]] := by
  induction a with
  | nil =>
    right
    rw [List.nil_append, pySplitlines_cons_nl]
    rfl
  | cons c rest ih =>
    rw [List.cons_append]
    by_cases hc : c = '\n'
    · subst hc
      rw [pySplitlines_cons_nl, pySplitlines_cons_nl]
      rcases ih with h | h
      · left; rw [h]
      · right; rw [h]; rfl
    · cases h' : pySplitlines rest with
      | nil =>
        have hrest : rest = [] := by
          by_contra hne
          exact pySplitlines_ne_nil hne h'
        subst hrest
        left
        have h1 : pySplitlines ['\n'] = [[]] := by rw [pySplitlines_cons_nl]; rfl
        have h0 : pySplitlines ([] : List Char) = [] := rfl
        rw [List.nil_append, pySplitlines_cons_of_cons hc h1, pySplitlines_cons_of_nil hc h0]
      | cons l ls =>
        rcases ih with h | h
        · left
          rw [pySplitlines_cons_of_cons hc (h.trans h'), pySplitlines_cons_of_cons hc h']
        · right
          have h2 : pySplitlines (rest ++ ['\n']) = l :: (ls ++ [[]]) := by
            rw [h, h']
            rfl
          rw [pySplitlines_cons_of_cons hc h2, pySplitlines_cons_of_cons hc h']
          rfl

theorem pySplitlines_line_snoc {x : List Char} (hx : ('\n' : Char) ∉ x) :
    pySplitlines (x ++ ['\n']) = [x] := by
  induction x with
  | nil =>
    rw [List.nil_append, pySplitlines_cons_nl]
    rfl
  | cons c rest ih =>
    have hc : c ≠ '\n' := fun h => hx (h ▸ List.mem_cons_self c rest)
    have hr : ('\n' : Char) ∉ rest := fun h => hx (List.mem_cons_of_mem _ h)
    rw [List.cons_append, pySplitlines_cons_of_cons hc (ih hr)]

theorem pySplitlines_joinNL : ∀ {L : List (List Char)}, L ≠ [] →
    (∀ l ∈ L, ('\n' : Char) ∉ l) →
    pySplitlines (pyJoinNL L ++ ['\n']) = L := by
  intro L
  induction L with
  | nil => intro h; exact absurd rfl h
  | cons x L ih =>
    intro _ hnl
    cases L with
    | nil => simpa [pyJoinNL] using pySplitlines_line_snoc (hnl x (by simp))
    | cons y L' =>
      have hjoin : pyJoinNL (x :: y :: L') = x ++ '\n' :: pyJoinNL (y :: L') := rfl
      rw [hjoin, List.append_assoc, List.cons_append, pySplitlines_append_newline,
        pySplitlines_line_snoc (hnl x (by simp)),
        ih (by simp) (fun l hl => hnl l (List.mem_cons_of_mem _ hl))]
      rfl

theorem not_newline_mem_pySplitlines : ∀ {a l : List Char},
    l ∈ pySplitlines a → ('\n' : Char) ∉ l := by
  intro a
  induction a with
  | nil => intro l hl; simp [pySplitlines] at hl
  | cons c rest ih =>
    intro l hl
    by_cases hc : c = '\n'
    · subst hc
      rw [pySplitlines_cons_nl] at hl
      rcases List.mem_cons.mp hl with rfl | hl
      · simp
      · exact ih hl
    · cases h' : pySplitlines rest with
      | nil =>
        rw [pySplitlines_cons_of_nil hc h'] at hl
        rcases List.mem_singleton.mp hl with rfl
        simp [Ne.symm hc]
      | cons l0 ls =>
        rw [pySplitlines_cons_of_cons hc h'] at hl
        rcases List.mem_cons.mp hl with rfl | hl
        · intro hmem
          rcases List.mem_cons.mp hmem with h | h
          · exact hc h.symm
          · exact ih (h' ▸ List.mem_cons_self l0 ls) h
        · exact ih (h' ▸ List.mem_cons_of_mem l0 hl)

/-! Behaviour of `ensure_gitignore` on an existing file. -/

theorem ensure_gitignore_noop {s : List Char}
    (h : gitignoreLinesToAdd (pySplitlines s) = []) :
    ensure_gitignore (some s) = (s, false) := by
  simp [ensure_gitignore, h]

theorem ensure_gitignore_append {s : List Char}
    (h : gitignoreLinesToAdd (pySplitlines s) ≠ []) :
    ensure_gitignore (some s) =
      (s ++ '\n' :: (pyJoinNL (gitignoreLinesToAdd (pySplitlines s)) ++ ['\n']), true) := by
  simp [ensure_gitignore, h]

theorem toAdd_no_newline {existing : List (List Char)} {l : List Char}
    (h : l ∈ gitignoreLinesToAdd existing) : ('\n' : Char) ∉ l :=
  not_newline_mem_pySplitlines ((List.mem_filter.mp h).1)

theorem merged_lines (s : List Char)
    (h : gitignoreLinesToAdd (pySplitlines s) ≠ []) :
    pySplitlines (ensure_gitignore (some s)).1 =
      pySplitlines (s ++ ['\n']) ++ gitignoreLinesToAdd (pySplitlines s) := by
  rw [ensure_gitignore_append h]
  show pySplitlines (s ++ '\n' :: (pyJoinNL (gitignoreLinesToAdd (pySplitlines s)) ++ ['\n'])) = _
  rw [pySplitlines_append_newline]
  congr 1
  exact pySplitlines_joinNL h (fun l hl => toAdd_no_newline hl)

theorem mem_lines_snoc_newline {s l : List Char} (h : l ∈ pySplitlines s) :
    l ∈ pySplitlines (s ++ ['\n']) := by
  rcases pySplitlines_snoc_newline s with h' | h' <;> rw [h']
  · exact h
  · exact List.mem_append_left _ h

theorem toAdd_after_run (g : Option (List Char)) :
    gitignoreLinesToAdd (pySplitlines (ensure_gitignore g).1) = [] := by
  have stable : ∀ lines : List (List Char),
      (∀ ln ∈ templateLines, ln ≠ [] → ln ∈ lines) →
      gitignoreLinesToAdd lines = [] := by
    intro lines hsub
    apply List.filter_eq_nil_iff.mpr
    intro ln hln
    simp only [decide_eq_true_eq, not_and, not_not]
    intro hne
    exact hsub ln hln hne
  cases g with
  | none =>
    show gitignoreLinesToAdd (pySplitlines GITIGNORE_TEMPLATE.data) = []
    exact stable _ (fun ln hln _ => hln)
  | some s =>
    by_cases h : gitignoreLinesToAdd (pySplitlines s) = []
    · rw [ensure_gitignore_noop h]
      exact h
    · rw [merged_lines s h]
      apply stable
      intro ln hln hne
      by_cases hmem : ln ∈ pySplitlines s
      · exact List.mem_append_left _ (mem_lines_snoc_newline hmem)
      · exact List.mem_append_right _
          (List.mem_filter.mpr ⟨hln, by simp [hne, hmem]⟩)

theorem ensure_gitignore_idem (g : Option (List Char)) :
    ensure_gitignore (some (ensure_gitignore g).1) = ((ensure_gitignore g).1, false) :=
  ensure_gitignore_noop (toAdd_after_run g)

/-- Each non-blank line of the template occurs in it exactly once
(established by evaluation on the concrete template). -/
theorem templateLines_count_one :
    ∀ l ∈ templateLines, l = [] ∨ List.count l templateLines = 1 := by decide

theorem count_lines_snoc_newline {s l : List Char} (hl : l ≠ []) :
    List.count l (pySplitlines (s ++ ['\n'])) = List.count l (pySplitlines s) := by
  rcases pySplitlines_snoc_newline s with h | h <;> rw [h]
  rw [List.count_append]
  have : List.count l [([] : List Char)] = 0 :=
    List.count_eq_zero.mpr (by simp [hl])
  rw [this, Nat.add_zero]

theorem count_toAdd {s l : List Char} (hl : l ≠ []) :
    List.count l (gitignoreLinesToAdd (pySplitlines s)) =
      (if l ∈ templateLines ∧ l ∉ pySplitlines s then 1 else 0) := by
  by_cases hc : l ∈ templateLines ∧ l ∉ pySplitlines s
  · rw [if_pos hc]
    have hp : (fun ln => decide (ln ≠ [] ∧ ln ∉ pySplitlines s)) l = true := by
      simp [hl, hc.2]
    have hcf : List.count l
        (List.filter (fun ln => decide (ln ≠ [] ∧ ln ∉ pySplitlines s)) templateLines) =
        List.count l templateLines := List.count_filter hp
    rw [gitignoreLinesToAdd, hcf]
    rcases templateLines_count_one l hc.1 with h | h
    · exact absurd h hl
    · exact h
  · rw [if_neg hc]
    apply List.count_eq_zero.mpr
    intro hmem
    rcases List.mem_filter.mp hmem with ⟨h1, h2⟩
    rcases decide_eq_true_eq.mp h2 with ⟨_, h3⟩
    exact hc ⟨h1, h3⟩

/-! Helpers about `init_git` and `main`. -/

theorem init_git_err_identity {so se : List Char}
    (h : isIdentityMsg (commitFailureMsg so se) = true) :
    init_git (CommitResult.err so se) = InitOutcome.fatalIdentity identityGuidance := by
  simp [init_git, h]

theorem init_git_err_other {so se : List Char}
    (h : isIdentityMsg (commitFailureMsg so se) = false) :
    init_git (CommitResult.err so se) = InitOutcome.continuedAfterFailure := by
  simp [init_git, h]

theorem identity_of_fatal {c : CommitResult} {g : List String}
    (h : init_git c = InitOutcome.fatalIdentity g) : identityCommitFailure c = true := by
  cases c with
  | ok => simp [init_git] at h
  | err o e =>
    by_cases hid : isIdentityMsg (commitFailureMsg o e) = true
    · simpa [identityCommitFailure] using hid
    · rw [init_git_err_other (by simpa using hid)] at h
      simp at h

theorem init_git_not_fatal {c : CommitResult} (h : identityCommitFailure c = false) :
    init_git c = InitOutcome.committed ∨ init_git c = InitOutcome.continuedAfterFailure := by
  cases c with
  | ok => left; rfl
  | err o e =>
    right
    exact init_git_err_other (by simpa [identityCommitFailure] using h)

theorem fatal_of_identity {c : CommitResult} (h : identityCommitFailure c = true) :
    init_git c = InitOutcome.fatalIdentity identityGuidance := by
  cases c with
  | ok => simp [identityCommitFailure] at h
  | err o e => exact init_git_err_identity (by simpa [identityCommitFailure] using h)

theorem main_no_git {env : Env} (hga : env.gitAvailable = false) :
    main env = ⟨1, env.gitignore, env.licenseFile, false, none, none, none, none⟩ := by
  simp [main, hga]

theorem main_fatal_identity {env : Env} (hga : env.gitAvailable = true)
    (hid : identityCommitFailure env.commitResult = true) :
    main env = ⟨1, some (ensure_gitignore env.gitignore).1,
      some (create_license env.licenseFile).1, false, none, none, none, none⟩ := by
  simp [main, hga, fatal_of_identity hid]

theorem main_no_token {env : Env} (hga : env.gitAvailable = true)
    (hid : identityCommitFailure env.commitResult = false)
    (htok : pyTruthy (lookupToken env.github_token env.gh_token) = false) :
    main env = ⟨2, some (ensure_gitignore env.gitignore).1,
      some (create_license env.licenseFile).1, false, none, none, none, none⟩ := by
  rcases init_git_not_fatal hid with hinit | hinit <;> simp [main, hga, hinit, htok]

theorem main_reached (env : Env) (hga : env.gitAvailable = true)
    (hid : identityCommitFailure env.commitResult = false)
    (htok : pyTruthy (lookupToken env.github_token env.gh_token) = true) :
    main env =
      match create_github_repo env.api with
      | .error e =>
        ⟨3, some (ensure_gitignore env.gitignore).1,
          some (create_license env.licenseFile).1, true,
          lookupToken env.github_token env.gh_token, none,
          some ("[github] Error: " ++ e), none⟩
      | .ok data =>
        match connect_remote_and_push env (data.clone_url.getD "") with
        | .error e =>
          ⟨3, some (ensure_gitignore env.gitignore).1,
            some (create_license env.licenseFile).1, true,
            lookupToken env.github_token env.gh_token, some (data.clone_url.getD ""),
            some ("[github] Error: " ++ e), none⟩
        | .ok _ =>
          ⟨0, some (ensure_gitignore env.gitignore).1,
            some (create_license env.licenseFile).1, true,
            lookupToken env.github_token env.gh_token, some (data.clone_url.getD ""),
            none, data.html_url⟩ := by
  rcases init_git_not_fatal hid with hinit | hinit <;> simp [main, hga, hinit, htok]

theorem connect_env_proj (env : Env) (b : Bool) (c : String) :
    connect_remote_and_push ⟨b, env.gitignore, env.licenseFile,
      CommitResult.ok, env.github_token, env.gh_token, env.api, env.remotes,
      env.remoteAdd, env.push⟩ c = connect_remote_and_push env c := rfl

/-! The claims. -/

/-- C6 (counterexample to the claim as stated). A success-status (200)
response whose JSON body does contain the clone-URL field, with the empty
string as its value, makes `create_github_repo` raise the missing-clone-URL
failure instead of returning the payload. -/
theorem create_repo_cex :
    (⟨200, "", some "", some "https://example.test/o/r"⟩ : ApiResponse).clone_url
        = some "" ∧
    create_github_repo ⟨200, "", some "", some "https://example.test/o/r"⟩ =
      Except.error "GitHub API did not return clone_url" :=
  ⟨rfl, rfl⟩

/-- C6 (amended). Function `create_github_repo` raises a failure carrying the status
code and response body for every non-success status (status `>= 300`, the
source's criterion); for every success-status response whose clone-URL field
is absent, null or empty it raises the missing-clone-URL failure; and for
every success-status response carrying a non-empty clone-URL value it returns
the full parsed payload (both fields the program reads). -/
theorem create_repo_result (r : ApiResponse) (u : String) :
    (300 ≤ r.status →
      create_github_repo r =
        Except.error ("GitHub API error " ++ toString r.status ++ ": " ++ r.text)) ∧
    (r.status < 300 → cloneUrlMissing r.clone_url = true →
      create_github_repo r = Except.error "GitHub API did not return clone_url") ∧
    (r.status < 300 → r.clone_url = some u → u ≠ "" →
      create_github_repo r = Except.ok ⟨r.clone_url, r.html_url⟩) := by
  refine ⟨fun h => ?_, fun h h' => ?_, fun h hu hne => ?_⟩
  · simp [create_github_repo, h]
  · simp only [create_github_repo, if_neg (by omega : ¬ 300 ≤ r.status)]
    simp [h']
  · have hmiss : cloneUrlMissing r.clone_url = false := by
      rw [hu]
      show u.isEmpty = false
      rcases hb : u.isEmpty with _ | _
      · rfl
      · exact absurd ((String.isEmpty_iff u).mp hb) hne
    simp only [create_github_repo, if_neg (by omega : ¬ 300 ≤ r.status)]
    simp [hmiss]

/-- Witness for C6 (amended), applying it to a 404 response, to a 200
response without a clone URL, and to a 201 response with one. -/
theorem create_repo_result_witness :
    create_github_repo ⟨404, "Not Found", none, none⟩ =
      Except.error ("GitHub API error " ++ toString 404 ++ ": " ++ "Not Found") ∧
    create_github_repo ⟨200, "{}", none, none⟩ =
      Except.error "GitHub API did not return clone_url" ∧
    create_github_repo ⟨201, "", some "https://example.test/o/r.git", some "u"⟩ =
      Except.ok ⟨some "https://example.test/o/r.git", some "u"⟩ :=
  ⟨(create_repo_result ⟨404, "Not Found", none, none⟩ "").1 (by decide),
   (create_repo_result ⟨200, "{}", none, none⟩ "").2.1 (by decide) (by decide),
   (create_repo_result ⟨201, "", some "https://example.test/o/r.git", some "u"⟩
      "https://example.test/o/r.git").2.2 (by decide) rfl (by decide)⟩

/-- C9 (counterexample to the claim as stated). With `GITHUB_TOKEN` set to
the empty string — a set variable — and `GH_TOKEN` set to `"gh_tok"`, the
token lookup consults the second variable and uses its value, not the value
of the first. -/
theorem token_precedence_cex :
    lookupToken (some "") (some "gh_tok") = some "gh_tok" ∧
    (some "gh_tok" : Option String) ≠ some "" := by decide

/-- C9 (amended). Variable `GITHUB_TOKEN` takes precedence over `GH_TOKEN` whenever it
is set to a non-empty value; the second variable is consulted exactly when
the first is unset or set to the empty string. -/
theorem token_precedence (s : String) (t : Option String) :
    (s ≠ "" → lookupToken (some s) t = some s) ∧
    lookupToken none t = t ∧
    lookupToken (some "") t = t := by
  refine ⟨fun h => ?_, rfl, rfl⟩
  have : s.isEmpty = false := by
    rcases hb : s.isEmpty with _ | _
    · rfl
    · exact absurd ((String.isEmpty_iff s).mp hb) h
  simp [lookupToken, pyTruthy, this]

/-- Witness for C9 (amended) at `GITHUB_TOKEN = "ghp_tok"`, `GH_TOKEN = "x"`. -/
theorem token_precedence_witness :
    ("ghp_tok" : String) ≠ "" ∧
    lookupToken (some "ghp_tok") (some "x") = some "ghp_tok" :=
  ⟨by decide, (token_precedence "ghp_tok" (some "x")).1 (by decide)⟩

/-- C7 (counterexample to the claim as stated). In a run with neither
credential variable set but the git binary absent, the process exits with
code 1, not with the missing-credential code 2. -/
theorem no_token_cex :
    envNoTokenNoGit.github_token = none ∧ envNoTokenNoGit.gh_token = none ∧
    (main envNoTokenNoGit).exitCode = 1 ∧ (main envNoTokenNoGit).exitCode ≠ 2 := by
  decide

/-- C7 (amended). For every run with neither credential environment variable
set, `create_github_repo` is never invoked; and if the run reaches the
credential check (git present and no fatal identity commit failure), it exits
with the missing-credential code 2. -/
theorem no_token_no_network (env : Env)
    (h1 : env.github_token = none) (h2 : env.gh_token = none) :
    (main env).createRepoCalled = false ∧
    (env.gitAvailable = true → identityCommitFailure env.commitResult = false →
      (main env).exitCode = 2) := by
  have htok : pyTruthy (lookupToken env.github_token env.gh_token) = false := by
    rw [h1, h2]
    rfl
  by_cases hga : env.gitAvailable = true
  · by_cases hid : identityCommitFailure env.commitResult = true
    · refine ⟨by rw [main_fatal_identity hga hid], fun _ hid' => ?_⟩
      rw [hid] at hid'
      exact absurd hid' (by simp)
    · have hid' : identityCommitFailure env.commitResult = false := by
        simpa using hid
      rw [main_no_token hga hid' htok]
      exact ⟨rfl, fun _ _ => rfl⟩
  · have hga' : env.gitAvailable = false := by simpa using hga
    rw [main_no_git hga']
    exact ⟨rfl, fun h => absurd h hga⟩

/-- Witness for C7 (amended): git present, commit fine, no credentials:
no API call and exit code 2. -/
theorem no_token_no_network_witness :
    (main envNoToken).createRepoCalled = false ∧
    (envNoToken.gitAvailable = true →
      identityCommitFailure envNoToken.commitResult = false →
      (main envNoToken).exitCode = 2) :=
  no_token_no_network envNoToken rfl rfl

/-- C1 (counterexample to the claim as stated). A run reaching the endpoint,
which returns status 201 with a JSON body containing both `clone_url` (with
the empty string as value) and `html_url`, surfaces an error (exit 3) and
never invokes `connect_remote_and_push`, although the claim promises a push
with exactly that clone URL. -/
theorem created_iff_pushed_cex :
    envEmptyCloneUrl.api.status = 201 ∧
    envEmptyCloneUrl.api.clone_url = some "" ∧
    envEmptyCloneUrl.api.html_url = some "https://example.test/o/r" ∧
    (main envEmptyCloneUrl).pushedCloneUrl = none ∧
    (main envEmptyCloneUrl).exitCode = 3 := by decide

/-- C1 (amended). For every run reaching the remote-creation call: if the
endpoint returns status 201 with a JSON body containing a non-empty
`clone_url` and an `html_url`, then `connect_remote_and_push` is invoked
with exactly that `clone_url` value; if the endpoint returns status 422, an
error is surfaced, the run exits with code 3 and no push is attempted. -/
theorem created_iff_pushed (env : Env) (u hu : String)
    (hga : env.gitAvailable = true)
    (hid : identityCommitFailure env.commitResult = false)
    (htok : pyTruthy (lookupToken env.github_token env.gh_token) = true) :
    (env.api.status = 201 → env.api.clone_url = some u → u ≠ "" →
      env.api.html_url = some hu →
      (main env).createRepoCalled = true ∧ (main env).pushedCloneUrl = some u) ∧
    (env.api.status = 422 →
      (main env).createRepoCalled = true ∧ (main env).pushedCloneUrl = none ∧
      (main env).exitCode = 3 ∧ (main env).surfacedError ≠ none) := by
  rw [main_reached env hga hid htok]
  constructor
  · intro h201 hcu hne hhtml
    have hmiss : cloneUrlMissing env.api.clone_url = false := by
      rw [hcu]
      show u.isEmpty = false
      rcases hb : u.isEmpty with _ | _
      · rfl
      · exact absurd ((String.isEmpty_iff u).mp hb) hne
    have hrepo : create_github_repo env.api =
        Except.ok ⟨env.api.clone_url, env.api.html_url⟩ := by
      simp only [create_github_repo, if_neg (by omega : ¬ 300 ≤ env.api.status)]
      simp [hmiss]
    rw [hrepo]
    simp only [hcu, Option.getD_some]
    cases hconn : connect_remote_and_push env u <;> simp [hconn]
  · intro h422
    have hrepo : create_github_repo env.api =
        Except.error ("GitHub API error " ++ toString env.api.status ++ ": " ++ env.api.text) := by
      simp [create_github_repo, h422]
    rw [hrepo]
    simp

/-- Witness for C1 (amended): a 201 response with a real clone URL leads to a
push with that URL, and a 422 response leads to exit 3 with no push. -/
theorem created_iff_pushed_witness :
    ((main envCreated).createRepoCalled = true ∧
      (main envCreated).pushedCloneUrl = some "https://example.test/o/r.git") ∧
    ((main envRejected).createRepoCalled = true ∧
      (main envRejected).pushedCloneUrl = none ∧
      (main envRejected).exitCode = 3 ∧ (main envRejected).surfacedError ≠ none) :=
  ⟨(created_iff_pushed envCreated "https://example.test/o/r.git"
      "https://example.test/o/r" rfl rfl rfl).1 rfl rfl (by decide) rfl,
   (created_iff_pushed envRejected "" "" rfl rfl rfl).2 rfl⟩

/-- C3 (counterexample to the claim as stated). On the pre-existing ignore
file `"dist/\ndist/"` — which partially overlaps the template (it consists of
the template line `dist/`) — the merged file produced by `ensure_gitignore`
duplicates the line `dist/` (count 2), and the blank line, which is a
template line missing from the original, is appended zero times rather than
exactly once. -/
theorem gitignore_merge_cex :
    List.count "dist/".data
        (pySplitlines (ensure_gitignore (some "dist/\ndist/".data)).1) = 2 ∧
    ([] : List Char) ∈ templateLines ∧
    ([] : List Char) ∉ pySplitlines "dist/\ndist/".data ∧
    List.count ([] : List Char)
        (pySplitlines (ensure_gitignore (some "dist/\ndist/".data)).1) = 0 := by decide

/-- C3 (amended). For every pre-existing ignore file and every non-blank
line `l`, the number of occurrences of `l` in the merged file equals its
count in the original plus one exactly when `l` is a template line absent
from the original: original lines are preserved with multiplicity, each
missing non-blank template line is appended exactly once, and no non-blank
line is duplicated unless the original already duplicated it. -/
theorem gitignore_merge_line_counts (s l : List Char) (hl : l ≠ []) :
    List.count l (pySplitlines (ensure_gitignore (some s)).1) =
      List.count l (pySplitlines s) +
        (if l ∈ templateLines ∧ l ∉ pySplitlines s then 1 else 0) := by
  by_cases h : gitignoreLinesToAdd (pySplitlines s) = []
  · have hzero : ¬ (l ∈ templateLines ∧ l ∉ pySplitlines s) := by
      rintro ⟨h1, h2⟩
      have hmem : l ∈ gitignoreLinesToAdd (pySplitlines s) :=
        List.mem_filter.mpr ⟨h1, by simp [hl, h2]⟩
      rw [h] at hmem
      simp at hmem
    simp only [ensure_gitignore_noop h, if_neg hzero, Nat.add_zero]
  · rw [merged_lines s h, List.count_append, count_lines_snoc_newline hl, count_toAdd hl]

/-- Witness for C3 (amended): merging into the one-line file `"dist/"` adds
the missing template line `*.pyo` exactly once. -/
theorem gitignore_merge_line_counts_witness :
    ("*.pyo".data ≠ ([] : List Char)) ∧
    List.count "*.pyo".data (pySplitlines (ensure_gitignore (some "dist/".data)).1) =
      List.count "*.pyo".data (pySplitlines "dist/".data) +
        (if "*.pyo".data ∈ templateLines ∧ "*.pyo".data ∉ pySplitlines "dist/".data
          then 1 else 0) :=
  ⟨by decide, gitignore_merge_line_counts "dist/".data "*.pyo".data (by decide)⟩

/-- C4: scaffolding is idempotent. For every directory (any pair of optional
pre-existing `.gitignore` and `LICENSE` contents), running `ensure_gitignore`
and `create_license` a second time immediately after a first run returns the
no-change result `false` for both, with the file contents unchanged — hence
contents after two runs equal contents after one run. -/
theorem scaffolding_idempotent (g l : Option (List Char)) :
    ensure_gitignore (some (ensure_gitignore g).1) = ((ensure_gitignore g).1, false) ∧
    create_license (some (create_license l).1) = ((create_license l).1, false) :=
  ⟨ensure_gitignore_idem g, rfl⟩

/-- C8: for every pre-existing `LICENSE` file, whatever its content,
`create_license` leaves the content byte-for-byte unchanged and returns
`false`. -/
theorem license_never_modified (c : List Char) :
    create_license (some c) = (c, false) := rfl

/-- C10: the function `ensure_gitignore` is append-only on an existing ignore file: the
original content is a prefix of the resulting content (so no existing line is
removed, changed or reordered), and the original's line list is a prefix of
the resulting line list (added lines appear only after the original
content). -/
theorem gitignore_append_only (s : List Char) :
    s <+: (ensure_gitignore (some s)).1 ∧
    pySplitlines s <+: pySplitlines (ensure_gitignore (some s)).1 := by
  by_cases h : gitignoreLinesToAdd (pySplitlines s) = []
  · rw [ensure_gitignore_noop h]
    exact ⟨⟨[], List.append_nil s⟩, ⟨[], List.append_nil _⟩⟩
  · constructor
    · rw [ensure_gitignore_append h]
      exact ⟨_, rfl⟩
    · rw [merged_lines s h]
      have h1 : pySplitlines s <+: pySplitlines (s ++ ['\n']) := by
        rcases pySplitlines_snoc_newline s with h' | h'
        · rw [h']
        · rw [h']
          exact ⟨[[]], rfl⟩
      rcases h1 with ⟨t, ht⟩
      exact ⟨t ++ gitignoreLinesToAdd (pySplitlines s), by rw [← List.append_assoc, ht]⟩

/-- C2 (counterexample to the claim as stated). With `GITHUB_TOKEN` set — to
the empty string — and `GH_TOKEN` unset, the run exits with code 2, although
the claim reserves code 2 for runs where no credential environment variable
is set. -/
theorem exit_code_cex :
    (main envEmptyToken).exitCode = 2 ∧ envEmptyToken.github_token ≠ none := by decide

/-- C2 (amended). Every run exits with code 0, 1, 2 or 3: 0 only on the
success path (no surfaced error, push performed); 1 only when the git binary
is missing or the initial commit failed with an identity-configuration
message; 2 only when no credential environment variable holds a non-empty
value; 3 only when remote repository creation or connect-and-push raised an
error. -/
theorem exit_code_classification (env : Env) :
    ((main env).exitCode = 0 ∧ (main env).surfacedError = none ∧
      (main env).pushedCloneUrl ≠ none) ∨
    ((main env).exitCode = 1 ∧
      (env.gitAvailable = false ∨ identityCommitFailure env.commitResult = true)) ∨
    ((main env).exitCode = 2 ∧
      pyTruthy (lookupToken env.github_token env.gh_token) = false) ∨
    ((main env).exitCode = 3 ∧ remoteStageError env) := by
  by_cases hga : env.gitAvailable = true
  · by_cases hid : identityCommitFailure env.commitResult = true
    · right; left
      rw [main_fatal_identity hga hid]
      exact ⟨rfl, Or.inr hid⟩
    · have hid' : identityCommitFailure env.commitResult = false := by simpa using hid
      by_cases htok : pyTruthy (lookupToken env.github_token env.gh_token) = true
      · rw [main_reached env hga hid' htok]
        cases hrepo : create_github_repo env.api with
        | error e =>
          right; right; right
          simp only [hrepo]
          exact ⟨by trivial, Or.inl ⟨e, hrepo⟩⟩
        | ok data =>
          cases hconn : connect_remote_and_push env (data.clone_url.getD "") with
          | error e =>
            right; right; right
            simp only [hrepo, hconn]
            exact ⟨by trivial, Or.inr ⟨data, e, hrepo, hconn⟩⟩
          | ok _ =>
            left
            simp only [hrepo, hconn]
            exact ⟨by trivial, by trivial, by simp⟩
      · have htok' : pyTruthy (lookupToken env.github_token env.gh_token) = false := by
          simpa using htok
        right; right; left
        rw [main_no_token hga hid' htok']
        exact ⟨rfl, htok'⟩
  · have hga' : env.gitAvailable = false := by simpa using hga
    right; left
    rw [main_no_git hga']
    exact ⟨rfl, Or.inl hga'⟩

/-- C5: in `init_git`, a commit failure whose message mentions the identity
configuration keys (`user.name` / `user.email` — the source's criterion for
"caused by missing identity configuration") produces the actionable guidance
and a fatal exit with code 1, before any remote call; every other commit
failure is non-fatal: it is logged as `continuedAfterFailure` and the run
behaves exactly as if the commit had succeeded. -/
theorem commit_failure_handling (env : Env) (so se : List Char)
    (hga : env.gitAvailable = true)
    (hcr : env.commitResult = CommitResult.err so se) :
    (isIdentityMsg (commitFailureMsg so se) = true →
      init_git env.commitResult = InitOutcome.fatalIdentity identityGuidance ∧
      (main env).exitCode = 1 ∧ (main env).createRepoCalled = false) ∧
    (isIdentityMsg (commitFailureMsg so se) = false →
      init_git env.commitResult = InitOutcome.continuedAfterFailure ∧
      main env = main ⟨env.gitAvailable, env.gitignore, env.licenseFile,
        CommitResult.ok, env.github_token, env.gh_token, env.api, env.remotes,
        env.remoteAdd, env.push⟩) := by
  constructor
  · intro hid
    have hfat : identityCommitFailure env.commitResult = true := by
      rw [hcr]
      simpa [identityCommitFailure] using hid
    refine ⟨by rw [hcr]; exact init_git_err_identity hid, ?_, ?_⟩
    · rw [main_fatal_identity hga hfat]
    · rw [main_fatal_identity hga hfat]
  · intro hid
    have h1 : init_git env.commitResult = InitOutcome.continuedAfterFailure := by
      rw [hcr]
      exact init_git_err_other hid
    refine ⟨h1, ?_⟩
    have h2 : init_git CommitResult.ok = InitOutcome.committed := rfl
    simp only [main, hga, h1, h2, connect_env_proj]

/-- Witness for C5: an identity-related commit failure is fatal with the
guidance, and a nothing-to-commit failure leaves the run identical to one
whose commit succeeded. -/
theorem commit_failure_handling_witness :
    (init_git envIdentityFailure.commitResult =
        InitOutcome.fatalIdentity identityGuidance ∧
      (main envIdentityFailure).exitCode = 1 ∧
      (main envIdentityFailure).createRepoCalled = false) ∧
    (init_git envNothingToCommit.commitResult = InitOutcome.continuedAfterFailure ∧
      main envNothingToCommit = main ⟨envNothingToCommit.gitAvailable,
        envNothingToCommit.gitignore, envNothingToCommit.licenseFile,
        CommitResult.ok, envNothingToCommit.github_token,
        envNothingToCommit.gh_token, envNothingToCommit.api,
        envNothingToCommit.remotes, envNothingToCommit.remoteAdd,
        envNothingToCommit.push⟩) :=
  ⟨(commit_failure_handling envIdentityFailure []
      "fatal: empty ident name. Run git config --global user.email".data
      rfl rfl).1 (by decide),
   (commit_failure_handling envNothingToCommit
      "nothing to commit, working tree clean".data []
      rfl rfl).2 (by decide)⟩

end AutoBoot
